import Mathlib

/-!
Verification of the SmartAssistant tool layer.

The repository is a Streamlit travel-assistant front end.  Its core is a
catalog of "tools" (`tools_module.py`, with near-identical copies of some
tools in `app.py` / `app2.py`): each tool wraps one HTTP call to an
external provider (weather, currency, holiday, geocoding, places, photos)
or a pure computation, and the app maintains an append-only chat history
plus a session-scoped cache of the last places result.

Shallow embedding conventions:
  * every external provider is modelled as an explicit function argument
    giving the parsed JSON of the provider response for given request
    parameters; JSON field access via `.get` (never raising) is an
    `Option` field, while subscript access `data["k"]` (which raises
    `KeyError` on a missing key) is an `Option` field consumed so that a
    missing key makes the whole tool result `none`;
  * a tool that can raise a Python exception returns an `Option`
    (`none` = a propagated fault), a tool that cannot returns plainly;
  * Python numbers are modelled as `ℚ` (amounts, temperatures, rates)
    or `Int`/`Nat` (counts, status codes);
  * session state (`st.session_state`) is threaded explicitly as a
    `SessionState` value.
-/

/-! ## Generic list/string helpers used to state properties -/

/-- `isPrefixL sub l` : does `sub` occur at the head of `l`? -/
def isPrefixL : List Char → List Char → Bool
  | [], _ => true
  | _ :: _, [] => false
  | a :: as, b :: bs => a == b && isPrefixL as bs

/-- `containsL sub l` : does `sub` occur contiguously anywhere in `l`? -/
def containsL (sub : List Char) : List Char → Bool
  | [] => isPrefixL sub []
  | c :: cs => isPrefixL sub (c :: cs) || containsL sub cs

/-- The suffix of `l` following the first occurrence of `sub`, if any. -/
def afterFirst (sub : List Char) : List Char → Option (List Char)
  | [] => if isPrefixL sub [] then some [] else none
  | c :: cs =>
    if isPrefixL sub (c :: cs) then some ((c :: cs).drop sub.length)
    else afterFirst sub cs

/-- Each string of `names` occurs in `l`, in the given order,
each occurrence starting after the end of the previous one. -/
def mentionsInOrder (l : List Char) : List String → Bool
  | [] => true
  | n :: ns =>
    match afterFirst n.data l with
    | none => false
    | some rest => mentionsInOrder rest ns

/-- Number of (possibly overlapping) occurrences of `sub` in `l`. -/
def countOcc (sub : List Char) : List Char → Nat
  | [] => 0
  | c :: cs => (if isPrefixL sub (c :: cs) then 1 else 0) + countOcc sub cs

/-- Python `s.split(sep)` for a one-character separator, over char lists:
`splitOnChar sep [] = [[]]`, and every occurrence of `sep` starts a new
group. -/
def splitOnChar (sep : Char) : List Char → List (List Char)
  | [] => [[]]
  | c :: cs =>
    if c == sep then [] :: splitOnChar sep cs
    else
      match splitOnChar sep cs with
      | [] => [[c]]
      | g :: gs => (c :: g) :: gs

/-- Python `round(x, 2)` modelled over `ℚ`: round to 2 decimal places
(ties rounded half-up; the claims under verification never hit a tie). -/
def round2 (x : ℚ) : ℚ := ((round (x * 100) : ℤ) : ℚ) / 100

/-- Python `s.upper()`: upper-case every character. -/
def upperStr (s : String) : String := String.mk (s.data.map Char.toUpper)

/-! ## Data model: conversation turns and session state -/

/-- Role of a conversation turn (`SystemMessage` / `HumanMessage` /
`AIMessage` in the apps). -/
inductive Role where
  | system
  | user
  | assistant
deriving DecidableEq, Repr

/-- One conversation turn: role plus text content. -/
structure Turn where
  role : Role
  content : String
deriving DecidableEq, Repr

/-- A formatted place entry as built by `foursquare_places` from one raw
place record (all fields come from `.get`, hence `Option`). -/
structure PlaceEntry where
  name : Option String
  address : Option String
  distance_m : Option Int
  categories : List (Option String)
  fsq_place_id : Option String
deriving DecidableEq, Repr

/-- The session-scoped mutable state of one Streamlit session:
`st.session_state.chat_history` and `st.session_state.last_places`
(the latter absent until `foursquare_places` first writes it). -/
structure SessionState where
  chat_history : List Turn
  last_places : Option (List PlaceEntry)
deriving DecidableEq, Repr

/-- `st.session_state.chat_history.append(HumanMessage(content=c))`. -/
def append_user_turn (st : SessionState) (content : String) : SessionState :=
  { st with chat_history := st.chat_history ++ [Turn.mk Role.user content] }

/-- `st.session_state.chat_history.append(AIMessage(content=c))`. -/
def append_assistant_turn (st : SessionState) (content : String) : SessionState :=
  { st with chat_history := st.chat_history ++ [Turn.mk Role.assistant content] }

/-! ## Currency tool (`convert_currency_amount`, tools_module.py:80-110,
identical in app2.py:73-101) -/

/-- Parsed JSON of the exchange-rate provider response for one
`/pair/FROM/TO` request: the `result` discriminator, the `error-type`
field, and the `conversion_rate` field, each read with `.get`. -/
structure CurrencyResponse where
  result : Option String
  error_type : Option String
  conversion_rate : Option ℚ
deriving DecidableEq, Repr

/-- Return value of `convert_currency_amount`: a number or one of the two
explanatory strings (Python returns either a float or a str). -/
inductive CurrencyResult where
  | amount (value : ℚ)
  | message (msg : String)
deriving DecidableEq, Repr

/-- Embedding of `convert_currency_amount(amount, from_currency,
to_currency)`.  `provider fc tc` is the parsed JSON the exchange-rate
service returns for the upper-cased pair `fc/tc`. -/
def convert_currency_amount (provider : String → String → CurrencyResponse)
    (amount : ℚ) (from_currency to_currency : String) : CurrencyResult :=
  if (provider (upperStr from_currency) (upperStr to_currency)).result == some "error" then
    CurrencyResult.message ("Error fetching rate: " ++
      ((provider (upperStr from_currency) (upperStr to_currency)).error_type.getD "Unknown error"))
  else
    match (provider (upperStr from_currency) (upperStr to_currency)).conversion_rate with
    | none => CurrencyResult.message ("Could not find conversion rate for " ++
        upperStr from_currency ++ " to " ++ upperStr to_currency ++ ".")
    | some rate => CurrencyResult.amount (round2 (amount * rate))

/-- Claim C2: whenever the provider supplies a valid conversion rate for
the upper-cased pair (no `error` discriminator and a present
`conversion_rate`), `convert_currency_amount amount A B` returns exactly
`round(amount * rate, 2)`. -/
theorem convert_currency_amount_valid_rate
    (provider : String → String → CurrencyResponse) (amount : ℚ)
    (from_currency to_currency : String) (rate : ℚ)
    (hok : (provider (upperStr from_currency) (upperStr to_currency)).result ≠ some "error")
    (hrate : (provider (upperStr from_currency) (upperStr to_currency)).conversion_rate = some rate) :
    convert_currency_amount provider amount from_currency to_currency =
      CurrencyResult.amount (round2 (amount * rate)) := by
  unfold convert_currency_amount
  rw [hrate]
  simp only [beq_iff_eq, if_neg hok]

/-- Witness for C2 at a concrete provider and inputs: rate 83.5 for
USD→INR converts 10 to 835. -/
theorem convert_currency_amount_valid_rate_witness :
    convert_currency_amount
      (fun _ _ => CurrencyResponse.mk (some "success") none (some (167/2)))
      10 "usd" "inr" = CurrencyResult.amount 835 := by
  have h := convert_currency_amount_valid_rate
    (fun _ _ => CurrencyResponse.mk (some "success") none (some (167/2)))
    10 "usd" "inr" (167/2) (by decide) rfl
  rw [h]
  norm_num [round2, round_eq]

/-- Claim C3: `convert_currency_amount` is invariant under letter-case
changes of the currency-code arguments: two calls whose codes agree after
upper-casing (against the same provider) return the same value, because
both codes are upper-cased before the rate lookup. -/
theorem convert_currency_amount_case_invariant
    (provider : String → String → CurrencyResponse) (amount : ℚ)
    (f₁ f₂ t₁ t₂ : String)
    (hf : upperStr f₁ = upperStr f₂) (ht : upperStr t₁ = upperStr t₂) :
    convert_currency_amount provider amount f₁ t₁ =
      convert_currency_amount provider amount f₂ t₂ := by
  unfold convert_currency_amount
  rw [hf, ht]

/-- Witness for C3: "usd"/"iNr" and "USd"/"INR" give the same result on a
concrete provider. -/
theorem convert_currency_amount_case_invariant_witness :
    convert_currency_amount
      (fun _ _ => CurrencyResponse.mk none none (some 2)) 5 "usd" "iNr" =
    convert_currency_amount
      (fun _ _ => CurrencyResponse.mk none none (some 2)) 5 "USd" "INR" :=
  convert_currency_amount_case_invariant
    (fun _ _ => CurrencyResponse.mk none none (some 2)) 5
    "usd" "USd" "iNr" "INR" (by decide) (by decide)

/-! ## Holiday tool (`get_holiday`, tools_module.py:115-134, identical in
app2.py:106-125 and app.py:61-77) -/

/-- One holiday record of the provider's JSON array (fields read with
`.get`, hence `Option`). -/
structure HolidayRecord where
  date : Option String
  name : Option String
  type : Option String
  location : Option String
deriving DecidableEq, Repr

/-- The holiday provider's HTTP response for one
(country, year, month, day) query: status code and parsed JSON body
(a list of holiday records; `[]` is the empty body). -/
structure HolidayHttp where
  status : Nat
  body : List HolidayRecord
deriving DecidableEq, Repr

/-- Return value of `get_holiday`: the `{"error": ...}` dict, the
`{"message": ...}` dict, or the pruned first holiday record. -/
inductive HolidayResult where
  | error (msg : String)
  | message (msg : String)
  | holiday (date name type location : Option String)
deriving DecidableEq, Repr

/-- Embedding of `get_holiday(date, country)`.  `provider country y m d`
is the provider response for that query.  The first component is the
returned value (`none` models the `ValueError` raised by
`year, month, day = date.split("-")` when the split does not yield
exactly three parts); the second component records whether the holiday
provider was queried during the call. -/
def get_holiday (provider : String → String → String → String → HolidayHttp)
    (date country : String) : Option HolidayResult × Bool :=
  match splitOnChar '-' date.data with
  | [year, month, day] =>
    let response := provider country (String.mk year) (String.mk month) (String.mk day)
    if response.status ≠ 200 then
      (some (HolidayResult.error ("HTTP " ++ toString response.status)), true)
    else
      match response.body with
      | [] => (some (HolidayResult.message ("No holiday on " ++ date ++ " in " ++ country)), true)
      | r :: _ => (some (HolidayResult.holiday r.date r.name r.type r.location), true)
  | _ => (none, false)

/-- Claim C4: for a well-formed date (the split yields three parts),
a 200 response with an empty body produces the "no holiday" message
naming the date and the country, and the `HTTP <status>` error value is
returned exactly when the status code is not 200. -/
theorem get_holiday_empty_body_and_error_paths
    (provider : String → String → String → String → HolidayHttp)
    (date country : String) (y m d : List Char)
    (hsplit : splitOnChar '-' date.data = [y, m, d]) :
    ((provider country (String.mk y) (String.mk m) (String.mk d)).status = 200 →
      (provider country (String.mk y) (String.mk m) (String.mk d)).body = [] →
      (get_holiday provider date country).1 =
        some (HolidayResult.message ("No holiday on " ++ date ++ " in " ++ country))) ∧
    (∀ e, (get_holiday provider date country).1 = some (HolidayResult.error e) ↔
      ((provider country (String.mk y) (String.mk m) (String.mk d)).status ≠ 200 ∧
        e = "HTTP " ++ toString (provider country (String.mk y) (String.mk m) (String.mk d)).status)) := by
  unfold get_holiday
  rw [hsplit]
  constructor
  · intro hstat hbody
    simp [hstat, hbody]
  · intro e
    by_cases hstat : (provider country (String.mk y) (String.mk m) (String.mk d)).status = 200
    · cases hbody : (provider country (String.mk y) (String.mk m) (String.mk d)).body <;>
        simp [hstat, hbody]
    · simp [hstat, eq_comm]

/-- Witness for C4 on concrete providers: with a 200/empty-body provider
the call on "2025-12-20"/"IN" yields the no-holiday message, and with a
500 provider it yields exactly the `HTTP 500` error. -/
theorem get_holiday_empty_body_and_error_paths_witness :
    (get_holiday (fun _ _ _ _ => HolidayHttp.mk 200 []) "2025-12-20" "IN").1 =
      some (HolidayResult.message "No holiday on 2025-12-20 in IN") ∧
    (get_holiday (fun _ _ _ _ => HolidayHttp.mk 500 []) "2025-12-20" "IN").1 =
      some (HolidayResult.error "HTTP 500") := by
  constructor
  · exact (get_holiday_empty_body_and_error_paths
      (fun _ _ _ _ => HolidayHttp.mk 200 []) "2025-12-20" "IN"
      "2025".data "12".data "20".data (by decide)).1 rfl rfl
  · exact ((get_holiday_empty_body_and_error_paths
      (fun _ _ _ _ => HolidayHttp.mk 500 []) "2025-12-20" "IN"
      "2025".data "12".data "20".data (by decide)).2 "HTTP 500").mpr
      ⟨by decide, by decide⟩

/-- Claim C7: when the date does not split on "-" into exactly three
components, `get_holiday` raises (the `ValueError` of the destructuring
assignment, modelled as `none`) before any request is issued to the
holiday provider (the queried flag is `false`). -/
theorem get_holiday_malformed_date
    (provider : String → String → String → String → HolidayHttp)
    (date country : String)
    (hbad : (splitOnChar '-' date.data).length ≠ 3) :
    get_holiday provider date country = (none, false) := by
  unfold get_holiday
  rcases h : splitOnChar '-' date.data with _ | ⟨a, _ | ⟨b, _ | ⟨c, _ | ⟨e, rest⟩⟩⟩⟩ <;>
    simp [h] at hbad ⊢

/-- Witness for C7: the malformed date "20251220" (no dashes) makes
`get_holiday` raise without querying the provider. -/
theorem get_holiday_malformed_date_witness :
    get_holiday (fun _ _ _ _ => HolidayHttp.mk 200 []) "20251220" "IN" = (none, false) :=
  get_holiday_malformed_date (fun _ _ _ _ => HolidayHttp.mk 200 []) "20251220" "IN" (by decide)

/-! ## Weather tool (`weather_forecast`, tools_module.py:52-76; app2.py
and app.py differ only in the `days` default and pruned field names) -/

/-- One entry of `data["forecast"]["forecastday"]` with the subscripted
fields the pruning step reads (a missing key raises, hence `Option`). -/
structure WeatherDayJson where
  date : Option String
  maxtemp_c : Option ℚ
  mintemp_c : Option ℚ
  condition_text : Option String
  daily_chance_of_rain : Option Int
deriving DecidableEq, Repr

/-- The object under the `error` key of the weather JSON
(`data["error"]["message"]` raises when `message` is missing). -/
structure WeatherErrJson where
  message : Option String
deriving DecidableEq, Repr

/-- Parsed weather-provider JSON: `error_field` is `some _` exactly when
the `error` key is present (`if "error" in data`); the remaining fields
are the subscripted paths of the success branch. -/
structure WeatherJson where
  error_field : Option WeatherErrJson
  location_name : Option String
  current_temp_c : Option ℚ
  current_condition_text : Option String
  forecastday : Option (List WeatherDayJson)
deriving DecidableEq, Repr

/-- One pruned per-day forecast record built by `weather_forecast`. -/
structure ForecastDaySummary where
  date : String
  max_temp_C : ℚ
  min_temp_C : ℚ
  condition : String
  rain_chance : Int
deriving DecidableEq, Repr

/-- Return value of `weather_forecast`: the `{"error": message}` dict or
the pruned forecast dict. -/
inductive WeatherResult where
  | error (message : String)
  | forecast (location : String) (current_temp_C : ℚ) (condition : String)
      (forecast_summary : List ForecastDaySummary)
deriving DecidableEq, Repr

/-- Embedding of `weather_forecast(location, days)`.  `provider q days`
is the parsed provider JSON for the location query `q`; the code always
queries `f"{location},IN"`.  `none` models a raised `KeyError` (a
subscripted field missing from a non-error response). -/
def weather_forecast (provider : String → Int → WeatherJson)
    (location : String) (days : Int) : Option WeatherResult :=
  let data := provider (location ++ ",IN") days
  match data.error_field with
  | some e => e.message.map WeatherResult.error
  | none => do
    let name ← data.location_name
    let temp ← data.current_temp_c
    let cond ← data.current_condition_text
    let fdays ← data.forecastday
    let summaries ← fdays.mapM (fun dayj => do
      let dt ← dayj.date
      let mx ← dayj.maxtemp_c
      let mn ← dayj.mintemp_c
      let cd ← dayj.condition_text
      let rc ← dayj.daily_chance_of_rain
      pure (ForecastDaySummary.mk dt mx mn cd rc))
    pure (WeatherResult.forecast name temp cond summaries)

/-- Claim C6: when the weather provider's response is an upstream error
(the `error` key is present, carrying a message), `weather_forecast`
returns the explicit `{error: message}` value with the provider's
message, and never aborts with a raised fault (the result is `some _`,
not the `none` that models an exception). -/
theorem weather_forecast_upstream_error
    (provider : String → Int → WeatherJson) (location : String) (days : Int)
    (e : WeatherErrJson) (msg : String)
    (herr : (provider (location ++ ",IN") days).error_field = some e)
    (hmsg : e.message = some msg) :
    weather_forecast provider location days = some (WeatherResult.error msg) := by
  simp [weather_forecast, herr, hmsg]

/-- Witness for C6: a provider answering every query with
`{"error": {"message": "No matching location found."}}`. -/
theorem weather_forecast_upstream_error_witness :
    weather_forecast
      (fun _ _ => WeatherJson.mk (some (WeatherErrJson.mk
        (some "No matching location found."))) none none none none)
      "Atlantis" 14 =
      some (WeatherResult.error "No matching location found.") :=
  weather_forecast_upstream_error
    (fun _ _ => WeatherJson.mk (some (WeatherErrJson.mk
      (some "No matching location found."))) none none none none)
    "Atlantis" 14 (WeatherErrJson.mk (some "No matching location found."))
    "No matching location found." rfl rfl

/-! ## Photo tool (`city_photos`, tools_module.py:274-297) -/

/-- One entry of the photo provider's `results` list; `regular` is
`p["urls"]["regular"]` (`none` models a missing `urls` or `regular`
key, where the comprehension would raise). -/
structure UnsplashItem where
  regular : Option String
deriving DecidableEq, Repr

/-- Parsed photo-provider JSON: the `results` field read with
`res.get("results", [])`. -/
structure UnsplashResponse where
  results : Option (List UnsplashItem)
deriving DecidableEq, Repr

/-- Return value of `city_photos`:
`{"type": "photos", "urls": photos}`. -/
structure PhotosResult where
  type_tag : String
  urls : List String
deriving DecidableEq, Repr

/-- Embedding of `city_photos(city, count)`.  `provider city count` is
the parsed photo-provider JSON for that search. -/
def city_photos (provider : String → Int → UnsplashResponse)
    (city : String) (count : Int) : Option PhotosResult :=
  let res := provider city count
  ((res.results.getD []).mapM (fun p : UnsplashItem => p.regular)).map
    (fun photos => PhotosResult.mk "photos" photos)

/-- Claim C10: when the photo provider's response has no `results` field
or an empty `results` list, `city_photos` returns
`{"type": "photos", "urls": []}` (not an error value, not a fault), and
every value it ever returns carries the discriminator
`"type" = "photos"`. -/
theorem city_photos_empty_and_discriminator :
    (∀ (provider : String → Int → UnsplashResponse) (city : String) (count : Int),
      ((provider city count).results = none ∨ (provider city count).results = some []) →
      city_photos provider city count = some (PhotosResult.mk "photos" [])) ∧
    (∀ (provider : String → Int → UnsplashResponse) (city : String) (count : Int)
      (r : PhotosResult),
      city_photos provider city count = some r → r.type_tag = "photos") := by
  constructor
  · rintro provider city count (h | h) <;> simp [city_photos, h] <;> rfl
  · intro provider city count r h
    simp only [city_photos, Option.map_eq_some'] at h
    obtain ⟨photos, -, rfl⟩ := h
    rfl

/-- Witness for C10: a provider with no `results` field yields the empty
photo result, whose discriminator is `"photos"`. -/
theorem city_photos_empty_and_discriminator_witness :
    city_photos (fun _ _ => UnsplashResponse.mk none) "Agra" 5 =
      some (PhotosResult.mk "photos" []) ∧
    (PhotosResult.mk "photos" []).type_tag = "photos" :=
  ⟨city_photos_empty_and_discriminator.1
      (fun _ _ => UnsplashResponse.mk none) "Agra" 5 (Or.inl rfl),
   city_photos_empty_and_discriminator.2
      (fun _ _ => UnsplashResponse.mk none) "Agra" 5 _
      (city_photos_empty_and_discriminator.1
        (fun _ _ => UnsplashResponse.mk none) "Agra" 5 (Or.inl rfl))⟩

/-! ## Places tool (`foursquare_places`, tools_module.py:193-267) -/

/-- One candidate of the geocoding provider's JSON list;
`geo[0]["lat"]` / `geo[0]["lon"]` raise when the key is missing,
hence `Option`. -/
structure GeoCandidate where
  lat : Option String
  lon : Option String
deriving DecidableEq, Repr

/-- One entry of a raw place's `categories` list. -/
structure CategoryJson where
  name : Option String
deriving DecidableEq, Repr

/-- One raw place record of the places provider (every field the
formatting loop touches is read with `.get`, hence `Option`;
`categories` defaults to `[]`). -/
structure FsqPlaceJson where
  name : Option String
  formatted_address : Option String
  distance : Option Int
  categories : List CategoryJson
  fsq_place_id : Option String
deriving DecidableEq, Repr

/-- Parsed places-provider JSON: the `results` field read with
`res.get("results", [])`. -/
structure PlacesJson where
  results : Option (List FsqPlaceJson)
deriving DecidableEq, Repr

/-- The formatting step of `foursquare_places`: one raw place record to
the pruned entry appended to `results`. -/
def formatPlace (p : FsqPlaceJson) : PlaceEntry :=
  PlaceEntry.mk p.name p.formatted_address p.distance
    (p.categories.map (fun c => c.name)) p.fsq_place_id

/-- Return value of `foursquare_places`: the `{"error": ...}` dict
(which carries no `results` key) or the full result dict. -/
inductive FsqResult where
  | error (msg : String)
  | ok (city lat lon : String) (results_count : Nat) (results : List PlaceEntry)
deriving DecidableEq, Repr

/-- Embedding of `foursquare_places(city, query, radius_m, limit)`.
`geocode city` is the geocoding provider's candidate list for `city`;
`placesApi ll query radius lim` is the places provider's JSON for a
search centred on the coordinate string `ll`.  Output components: the
returned value (`none` models a raised `KeyError` on a candidate without
`lat`/`lon`), the session state after the call, and whether the places
provider was queried. -/
def foursquare_places (geocode : String → List GeoCandidate)
    (placesApi : String → String → Int → Int → PlacesJson)
    (st : SessionState) (city query : String) (radius_m lim : Int) :
    Option FsqResult × SessionState × Bool :=
  match geocode city with
  | [] => (some (FsqResult.error ("City \x27" ++ city ++ "\x27 not found")), st, false)
  | g :: _ =>
    match g.lat, g.lon with
    | some lat, some lon =>
      let res := placesApi (lat ++ "," ++ lon) query radius_m lim
      let results := (res.results.getD []).map formatPlace
      (some (FsqResult.ok city lat lon results.length results),
        { st with last_places := some results }, true)
    | _, _ => (none, st, false)

/-- Claim C5: when the geocoding provider returns an empty candidate
list, `foursquare_places` returns the error value naming the city (the
`error` variant, which carries no `results` field), the session state is
untouched, and the places provider is never queried (flag `false`). -/
theorem foursquare_places_unresolvable_city
    (geocode : String → List GeoCandidate)
    (placesApi : String → String → Int → Int → PlacesJson)
    (st : SessionState) (city query : String) (radius_m lim : Int)
    (h : geocode city = []) :
    foursquare_places geocode placesApi st city query radius_m lim =
      (some (FsqResult.error ("City \x27" ++ city ++ "\x27 not found")), st, false) := by
  simp [foursquare_places, h]

/-- Witness for C5: a geocoder that resolves nothing, queried for
"Nowhereville". -/
theorem foursquare_places_unresolvable_city_witness :
    foursquare_places (fun _ => []) (fun _ _ _ _ => PlacesJson.mk none)
      (SessionState.mk [] none) "Nowhereville" "restaurants" 2000 10 =
      (some (FsqResult.error "City \x27Nowhereville\x27 not found"),
        SessionState.mk [] none, false) :=
  foursquare_places_unresolvable_city (fun _ => [])
    (fun _ _ _ _ => PlacesJson.mk none) (SessionState.mk [] none)
    "Nowhereville" "restaurants" 2000 10 rfl

/-! ## Planner tool (`full_trip_planner`, tools_module.py:304-341) -/

/-- Embedding of `full_trip_planner(city, start_date, end_date, budget)`:
the exact f-string the tool returns.  Unlike every other tool above it
takes no provider argument — the function performs no external I/O and
its output depends only on its four arguments. -/
def full_trip_planner (city start_date end_date : String) (budget : Int) : String :=
  "\n    Start full trip planning for:\n    City: " ++ city ++
  "\n    Dates: " ++ start_date ++ " to " ++ end_date ++
  "\n    Budget: " ++ toString budget ++
  "\n\n    Now perform these steps in order:" ++
  "\n    1. Call weather_forecast tool(city)" ++
  "\n    2. Call get_holiday tool(start_date)" ++
  "\n    3. Call safety_risk_radar tool(city)" ++
  "\n    4. Call budget_context_search tool(city)" ++
  "\n    5. Call foursquare_places tool(city, \x27tourist\x27)" ++
  "\n    6. Call city_photos tool(city)" ++
  "\n\n    Then summarize all tool results beautifully.\n    "

set_option maxRecDepth 8000 in
/-- Claim C1: on ("Agra", "2025-12-20", "2025-12-22", 30000) the plan
string enumerates, in order, the six numbered steps naming
weather_forecast, get_holiday, safety_risk_radar, budget_context_search,
foursquare_places and city_photos; it contains exactly six step markers
(`. Call `); the city "Agra", the dates and the budget are bound in the
plan header (each step then refers to that binding as `city` /
`start_date`); and the output is a pure function of the four arguments
(the definition takes no provider argument, and equal arguments give
equal output). -/
theorem full_trip_planner_agra_plan :
    mentionsInOrder (full_trip_planner "Agra" "2025-12-20" "2025-12-22" 30000).data
      ["1. Call weather_forecast tool(city)",
       "2. Call get_holiday tool(start_date)",
       "3. Call safety_risk_radar tool(city)",
       "4. Call budget_context_search tool(city)",
       "5. Call foursquare_places tool(city, \x27tourist\x27)",
       "6. Call city_photos tool(city)"] = true ∧
    countOcc ". Call ".data
      (full_trip_planner "Agra" "2025-12-20" "2025-12-22" 30000).data = 6 ∧
    containsL "City: Agra".data
      (full_trip_planner "Agra" "2025-12-20" "2025-12-22" 30000).data = true ∧
    containsL "Dates: 2025-12-20 to 2025-12-22".data
      (full_trip_planner "Agra" "2025-12-20" "2025-12-22" 30000).data = true ∧
    containsL "Budget: 30000".data
      (full_trip_planner "Agra" "2025-12-20" "2025-12-22" 30000).data = true ∧
    (∀ c₁ s₁ e₁ b₁ c₂ s₂ e₂ b₂, c₁ = c₂ → s₁ = s₂ → e₁ = e₂ → b₁ = b₂ →
      full_trip_planner c₁ s₁ e₁ b₁ = full_trip_planner c₂ s₂ e₂ b₂) := by
  refine ⟨by decide, by decide, by decide, by decide, by decide, ?_⟩
  rintro c₁ s₁ e₁ b₁ c₂ s₂ e₂ b₂ rfl rfl rfl rfl
  rfl

/-- Witness for C1 (the final conjunct carries hypotheses): equal
arguments give equal plans at a concrete instance. -/
theorem full_trip_planner_agra_plan_witness :
    full_trip_planner "Agra" "2025-12-20" "2025-12-22" 30000 =
      full_trip_planner "Agra" "2025-12-20" "2025-12-22" 30000 :=
  full_trip_planner_agra_plan.2.2.2.2.2 "Agra" "2025-12-20" "2025-12-22" 30000
    "Agra" "2025-12-20" "2025-12-22" 30000 rfl rfl rfl rfl

/-! ## Remaining tools and the tool catalog (tools_module.py) -/

/-- Return value of `safety_risk_radar`. -/
structure SafetyReport where
  city : String
  crime_trends : String
  terrain_risk : String
deriving DecidableEq, Repr

/-- Embedding of `safety_risk_radar(city)`; `web q` is the web-search
summary for the query `q` (the tool issues the crime query and the
flood/landslide query). -/
def safety_risk_radar (web : String → String) (city : String) : SafetyReport :=
  SafetyReport.mk city
    (web ("latest crime trends and safety situation in " ++ city ++ " India 2025"))
    (web ("flood and landslide risk level in " ++ city ++ " India"))

/-- Embedding of `budget_context_search(city_name, item_category)`:
a derived query to the search tool wrapped in framing text. -/
def budget_context_search (web : String → String)
    (city_name item_category : String) : String :=
  "Cost context for " ++ city_name ++ " (" ++ item_category ++ "): " ++
    web ("Average cost of " ++ item_category ++ " in " ++ city_name ++ " in Indian rupees")

/-- All external collaborators of the tool catalog, read-only during a
run: each field gives the parsed response of one provider, plus the
formatted current timestamp used by `current_datetime`. -/
structure World where
  weather : String → Int → WeatherJson
  currency : String → String → CurrencyResponse
  holiday : String → String → String → String → HolidayHttp
  geocode : String → List GeoCandidate
  placesApi : String → String → Int → Int → PlacesJson
  unsplash : String → Int → UnsplashResponse
  web : String → String
  now_str : String

/-- One invocation of a tool of the `tools_module.py` catalog, with its
resolved arguments. -/
inductive ToolCall where
  | current_datetime
  | search_tool (query : String)
  | weather_forecast (location : String) (days : Int)
  | convert_currency_amount (amount : ℚ) (from_currency to_currency : String)
  | get_holiday (date country : String)
  | budget_context_search (city_name item_category : String)
  | safety_risk_radar (city : String)
  | foursquare_places (city query : String) (radius_m lim : Int)
  | city_photos (city : String) (count : Int)
  | full_trip_planner (city start_date end_date : String) (budget : Int)
deriving DecidableEq, Repr

/-- Raw result of one tool invocation (one variant per return shape). -/
inductive ToolResult where
  | text (s : String)
  | weather (r : WeatherResult)
  | currency (r : CurrencyResult)
  | holiday (r : HolidayResult)
  | safety (r : SafetyReport)
  | places (r : FsqResult)
  | photos (r : PhotosResult)
  | plan (s : String)
deriving DecidableEq, Repr

/-- Does this call target `foursquare_places`? -/
def isFsqCall : ToolCall → Bool
  | ToolCall.foursquare_places _ _ _ _ => true
  | _ => false

/-- Dispatch of one tool call against the providers and the current
session state: the result (`none` models a raised exception) and the
session state after the call.  Only the `foursquare_places` branch
touches the session state — every other tool in `tools_module.py`
never references `st.session_state`. -/
def runTool (w : World) (st : SessionState) : ToolCall → Option ToolResult × SessionState
  | ToolCall.current_datetime => (some (ToolResult.text w.now_str), st)
  | ToolCall.search_tool q => (some (ToolResult.text (w.web q)), st)
  | ToolCall.weather_forecast loc days =>
      ((weather_forecast w.weather loc days).map ToolResult.weather, st)
  | ToolCall.convert_currency_amount a f t =>
      (some (ToolResult.currency (convert_currency_amount w.currency a f t)), st)
  | ToolCall.get_holiday d c =>
      ((get_holiday w.holiday d c).1.map ToolResult.holiday, st)
  | ToolCall.budget_context_search city cat =>
      (some (ToolResult.text (budget_context_search w.web city cat)), st)
  | ToolCall.safety_risk_radar city =>
      (some (ToolResult.safety (safety_risk_radar w.web city)), st)
  | ToolCall.foursquare_places city q r l =>
      let out := foursquare_places w.geocode w.placesApi st city q r l
      (out.1.map ToolResult.places, out.2.1)
  | ToolCall.city_photos city count =>
      ((city_photos w.unsplash city count).map ToolResult.photos, st)
  | ToolCall.full_trip_planner c s e b =>
      (some (ToolResult.plan (full_trip_planner c s e b)), st)

/-- Claim C9: a successful `foursquare_places` call writes exactly the
formatted results list to the session field `last_places` and leaves the
rest of the session state (the chat history) unchanged; and every other
tool of the catalog leaves the whole session state — in particular
`last_places` — unchanged. -/
theorem foursquare_places_only_session_writer (w : World) (st : SessionState) :
    (∀ city query radius_m lim g gs lat lon,
      w.geocode city = g :: gs → g.lat = some lat → g.lon = some lon →
      ((runTool w st (ToolCall.foursquare_places city query radius_m lim)).2.chat_history
          = st.chat_history ∧
       (runTool w st (ToolCall.foursquare_places city query radius_m lim)).2.last_places
          = some (((w.placesApi (lat ++ "," ++ lon) query radius_m lim).results.getD
              []).map formatPlace))) ∧
    (∀ c : ToolCall, isFsqCall c = false → (runTool w st c).2 = st) := by
  constructor
  · intro city query radius_m lim g gs lat lon hgeo hlat hlon
    simp [runTool, foursquare_places, hgeo, hlat, hlon]
  · intro c hc
    cases c <;> simp_all [runTool, isFsqCall]

/-- A concrete provider world for witnesses: one geocoding candidate,
empty places list, 200/empty holiday responses, trivial web search. -/
def W0 : World :=
  World.mk
    (fun _ _ => WeatherJson.mk none none none none none)
    (fun _ _ => CurrencyResponse.mk none none none)
    (fun _ _ _ _ => HolidayHttp.mk 200 [])
    (fun _ => [GeoCandidate.mk (some "27.18") (some "78.02")])
    (fun _ _ _ _ => PlacesJson.mk (some []))
    (fun _ _ => UnsplashResponse.mk none)
    (fun q => q)
    "Monday, January 01, 2025 - 10:00 AM"

/-- A concrete session state for witnesses. -/
def S0 : SessionState := SessionState.mk [] none

/-- Witness for C9: in `W0`, a `foursquare_places` call on "Agra" leaves
the chat history unchanged and sets `last_places` to the (empty)
formatted list, while `current_datetime` leaves the state unchanged. -/
theorem foursquare_places_only_session_writer_witness :
    ((runTool W0 S0 (ToolCall.foursquare_places "Agra" "tourist" 2000 10)).2.chat_history
        = S0.chat_history ∧
     (runTool W0 S0 (ToolCall.foursquare_places "Agra" "tourist" 2000 10)).2.last_places
        = some []) ∧
    (runTool W0 S0 ToolCall.current_datetime).2 = S0 :=
  ⟨(foursquare_places_only_session_writer W0 S0).1 "Agra" "tourist" 2000 10
      (GeoCandidate.mk (some "27.18") (some "78.02")) [] "27.18" "78.02" rfl rfl rfl,
   (foursquare_places_only_session_writer W0 S0).2 ToolCall.current_datetime rfl⟩

/-! ## Conversation history (app.py:118-139, app2.py:214-237) -/

/-- Claim C8: appending a user turn and then an assistant turn to the
conversation history yields exactly the original history followed by
those two turns, in that order, with unchanged content (in particular
every pre-existing turn is preserved unedited, since the new history is
the old one with the two turns appended at the end), and the rest of the
session state is untouched. -/
theorem chat_history_round_trip (st : SessionState) (u a : String) :
    (append_assistant_turn (append_user_turn st u) a).chat_history =
      st.chat_history ++ [Turn.mk Role.user u, Turn.mk Role.assistant a] ∧
    (append_assistant_turn (append_user_turn st u) a).last_places = st.last_places := by
  simp [append_user_turn, append_assistant_turn]
